import Mathlib

/-!
Verification of the offline audio transcriber (src/transcribe.py and
src/gui.py) against its natural-language specification.

The embedding is shallow.  Pure formatting helpers of transcribe.py become
Lean functions on exact rationals (the concrete timestamps the specification
speaks about are exact multiples of 1/100, so no binary floating-point
rounding is involved at the checked inputs).  The Tk text widget becomes an
explicit surface value (writability flag plus the ordered list of tagged
inserts); each GUI handler of gui.py becomes a function on an explicit
GuiState record, with a fallible external call modelled as an Except
argument supplied by the environment.  Exceptions raised inside a try block
are modelled by executing only a prefix of the operations of the block; the
finally block is applied on every path, as in Python.
-/

namespace Transcriber

/-- Table of model identifiers, transcribe.py lines 8 to 14.  The keys are
the ModelSize values of the specification. -/
def MODELS : List (String × String) :=
  [("tiny", "openai/whisper-tiny"),
   ("base", "openai/whisper-base"),
   ("small", "openai/whisper-small"),
   ("medium", "openai/whisper-medium"),
   ("large", "openai/whisper-large-v3-turbo")]

/-- Opaque loaded-model resource (the value of self.pipe).  Only identity
matters to the control flow, so a numeric id models it. -/
abbrev ModelHandle := Nat

/-- Timestamp of one chunk, as transcribe.py line 86 and gui.py line 309
dispatch on it: a Python tuple (start, end) gives a ranged timestamp and a
bare number gives a point timestamp (endTime absent). -/
inductive Timestamp where
  | range (startT endT : ℚ)
  | point (t : ℚ)
deriving Repr, DecidableEq

/-- One timed chunk of the result dictionary: result["chunks"][i] has a
"timestamp" and a "text" entry. -/
structure Chunk where
  timestamp : Timestamp
  text : String
deriving Repr, DecidableEq

/-- The result dictionary of a successful pipeline call: result["text"] and
result["chunks"]. -/
structure TranscriptResult where
  text : String
  chunks : List Chunk
deriving Repr, DecidableEq

/-- Python str.strip(): remove leading and trailing whitespace. -/
def pyStrip (s : String) : String :=
  ⟨((s.data.dropWhile Char.isWhitespace).reverse.dropWhile Char.isWhitespace).reverse⟩

/-- Two decimal digits with a leading zero, the fractional part of a
%.2f rendering. -/
def pad2 (n : Nat) : String := if n < 10 then "0" ++ toString n else toString n

/-- Python f-string fixed-point rendering with two decimal places, applied
to an exact rational: the value is rounded to a whole number of hundredths
and printed as integer part, point, two fractional digits. -/
def fmt2 (q : ℚ) : String :=
  let c : Int := round (q * 100)
  let a := c.natAbs
  (if c < 0 then "-" else "") ++ toString (a / 100) ++ "." ++ pad2 (a % 100)

/-- format_timestamp of transcribe.py lines 84 to 89: a tuple renders as
"[start -> end]" and a bare value as "[start]", both with two decimal
places and the unit suffix s. -/
def format_timestamp : Timestamp → String
  | .range s e => "[" ++ fmt2 s ++ "s -> " ++ fmt2 e ++ "s]"
  | .point t => "[" ++ fmt2 t ++ "s]"

/-- The inline time_str computation of gui.py lines 308 to 313, written
there a second time instead of calling format_timestamp. -/
def gui_time_str (ts : Timestamp) : String :=
  match ts with
  | .range s e => "[" ++ fmt2 s ++ "s -> " ++ fmt2 e ++ "s]"
  | .point t => "[" ++ fmt2 t ++ "s]"

/-- transcribe_audio of transcribe.py lines 63 to 82.  The inference call
itself is opaque; its outcome arrives as an Except value.  The try block
returns the result; the except block prints one error line and returns
None.  The second component is the list of lines printed to the console. -/
def transcribe_audio (outcome : Except String TranscriptResult) :
    Option TranscriptResult × List String :=
  match outcome with
  | .ok r => (some r, [])
  | .error e => (none, ["Error transcribing audio: " ++ e])

/-- main of transcribe.py lines 91 to 111, for a parsed --model and --file.
The environment supplies the outcome of setup_whisper and of the pipeline
call.  Result: the lines printed to standard output and the process exit
code (an exception out of setup_whisper is uncaught, so Python exits with
code 1; otherwise main falls through and exits 0). -/
def cli_main (model : String) (setupOutcome : Except String ModelHandle)
    (inference : Except String TranscriptResult) : List String × Nat :=
  let header := ["Using " ++ model ++ " model..."]
  match setupOutcome with
  | .error _ => (header, 1)
  | .ok _ =>
    let (result, printed) := transcribe_audio inference
    match result with
    | some r =>
        (header ++ printed ++
         ["Transcription:", pyStrip r.text, "Timestamped chunks:"] ++
         r.chunks.map (fun c => format_timestamp c.timestamp ++ " " ++ pyStrip c.text),
         0)
    | none => (header ++ printed, 0)

/-- State of a Tk widget: normal (fully enabled), disabled (greyed out,
ignores interaction and programmatic edits), or readonly (a Combobox whose
dropdown works but whose entry text cannot be typed into; it counts as
enabled for the user). -/
inductive WidgetState where
  | normal
  | disabled
  | readonly
deriving Repr, DecidableEq

/-- A control is enabled exactly when it is not in the disabled state. -/
def WidgetState.enabled : WidgetState → Bool
  | .disabled => false
  | _ => true

/-- The ScrolledText output panel: its writability (state normal versus
disabled) and its content as the ordered list of inserted runs, each with
its optional style tag. -/
structure TextSurface where
  writable : Bool
  content : List (Option String × String)
deriving Repr, DecidableEq

/-- One primitive operation on the output panel, matching the Tk calls
config, delete and insert used by update_output in gui.py. -/
inductive TextOp where
  | config (writable : Bool)
  | deleteAll
  | insert (tag : Option String) (text : String)
deriving Repr, DecidableEq

/-- Tk semantics of one operation: config flips writability; delete and
insert modify the content only while the widget is writable (a disabled Tk
text widget silently ignores programmatic edits). -/
def applyTextOp (surf : TextSurface) : TextOp → TextSurface
  | .config w => { surf with writable := w }
  | .deleteAll => if surf.writable then { surf with content := [] } else surf
  | .insert tag t =>
      if surf.writable then { surf with content := surf.content ++ [(tag, t)] } else surf

/-- Run a list of text operations left to right. -/
def runOps (surf : TextSurface) (ops : List TextOp) : TextSurface :=
  ops.foldl applyTextOp surf

/-- The mutable state of the WhisperGUI object and its widgets: the two
job-triggering controls, the model StringVar, the status line, the progress
bar, the output panel, and the session fields self.pipe and
self.current_model. -/
structure GuiState where
  selectButton : WidgetState
  modelCombo : WidgetState
  modelVar : String
  statusVar : String
  progressRunning : Bool
  output : TextSurface
  pipe : Option ModelHandle
  currentModel : String
deriving Repr, DecidableEq

/-- State as built by WhisperGUI.init, gui.py lines 88, 94, 105 and 184 to
190: the select button starts disabled, the combobox readonly with value
small, the output panel read-only and empty, no pipeline loaded. -/
def initState : GuiState :=
  { selectButton := .disabled
    modelCombo := .readonly
    modelVar := "small"
    statusVar := "Initializing Whisper model..."
    progressRunning := false
    output := { writable := false, content := [] }
    pipe := none
    currentModel := "small" }

/-- First UI callback of initialize_pipeline, gui.py lines 204 to 209: both
controls disabled, downloading status, progress stopped.  This is the state
visible while the model-load job is in flight. -/
def initialize_pipeline_started (s : GuiState) : GuiState :=
  { s with selectButton := .disabled
           modelCombo := .disabled
           statusVar := "Downloading model... This may take a few minutes..."
           progressRunning := false }

/-- Completion of initialize_pipeline, gui.py lines 211 to 226.  On success
(line 211 stored the new handle in self.pipe) the callback of lines 214 to
219 enables both controls and sets status Ready; on failure the callback of
lines 221 to 226 keeps the select button disabled, returns the combobox to
readonly and shows the error. -/
def initialize_pipeline_finish (outcome : Except String ModelHandle)
    (s : GuiState) : GuiState :=
  match outcome with
  | .ok h =>
      { s with pipe := some h
               selectButton := .normal
               modelCombo := .readonly
               statusVar := "Ready"
               progressRunning := false }
  | .error e =>
      { s with selectButton := .disabled
               modelCombo := .readonly
               statusVar := "Error initializing: " ++ e
               progressRunning := false }

/-- The whole initialize_pipeline job, gui.py lines 192 to 226: the
in-flight callback followed by the completion callback for the outcome of
setup_whisper. -/
def initialize_pipeline (outcome : Except String ModelHandle)
    (s : GuiState) : GuiState :=
  initialize_pipeline_finish outcome (initialize_pipeline_started s)

/-- on_model_change of gui.py lines 228 to 245.  When the selected value
differs from self.current_model it records the new size, disables both
controls synchronously, sets the downloading status and spawns an
initialize_pipeline worker (second component true); otherwise nothing
happens. -/
def on_model_change (s : GuiState) : GuiState × Bool :=
  if s.modelVar ≠ s.currentModel then
    ({ s with currentModel := s.modelVar
              selectButton := .disabled
              modelCombo := .disabled
              progressRunning := false
              statusVar := "Downloading " ++ s.modelVar ++
                " model... This may take a few minutes..." },
     true)
  else (s, false)

/-- Python os.path.basename for the forward-slash paths used here. -/
def basename (p : String) : String := (p.splitOn "/").getLastD p

/-- Synchronous part of transcribe_file, gui.py lines 265 to 278 and 334:
when the path does not exist the status is set and the handler returns
without spawning a thread; otherwise the worker thread is spawned (second
component true) and the handler returns with the state untouched. -/
def transcribe_file (fileExists : Bool) (s : GuiState) : GuiState × Bool :=
  if fileExists then (s, true)
  else ({ s with statusVar := "Error: File not found" }, false)

/-- First UI callback of the transcribe worker, gui.py lines 283 to 287:
the select button is disabled, the status names the file, the progress bar
starts.  The model combobox is not touched. -/
def transcribe_worker_start (filePath : String) (s : GuiState) : GuiState :=
  { s with selectButton := .disabled
           statusVar := "Transcribing " ++ basename filePath ++ "..."
           progressRunning := true }

/-- Insert operations for one chunk, gui.py lines 307 to 317. -/
def chunk_ops (c : Chunk) : List TextOp :=
  [.insert (some "timestamp") (gui_time_str c.timestamp ++ " "),
   .insert (some "text") (pyStrip c.text),
   .insert none "\n\n"]

/-- Insert operations of the if-result branch of update_output, gui.py
lines 296 to 317. -/
def render_inserts (r : TranscriptResult) : List TextOp :=
  [.insert (some "header") "Full Transcription:\n",
   .insert none "\n",
   .insert (some "text") (pyStrip r.text),
   .insert none "\n\n\n",
   .insert (some "header") "Timestamped Chunks:\n",
   .insert none "\n"] ++ r.chunks.flatMap chunk_ops

/-- Operations of the try block of update_output, gui.py lines 293 to 317:
make the panel writable, clear it, and insert the rendered result when
there is one. -/
def render_ops : Option TranscriptResult → List TextOp
  | some r => [.config true, .deleteAll] ++ render_inserts r
  | none => [.config true, .deleteAll]

/-- update_output of gui.py lines 291 to 323, as scheduled on the UI
thread.  raiseAt = some k models an exception thrown after k operations of
the try block (so only that prefix executes); raiseAt = none is the normal
path.  The finally block of lines 318 to 323 runs on every path: the panel
is returned to read-only, the progress bar stops, the select button is
re-enabled and the status is set to Transcription complete. -/
def update_output (result : Option TranscriptResult) (raiseAt : Option Nat)
    (s : GuiState) : GuiState :=
  let body := render_ops result
  let executed := match raiseAt with
    | none => body
    | some k => body.take k
  let surf := runOps s.output executed
  { s with output := applyTextOp surf (.config false)
           progressRunning := false
           selectButton := .normal
           statusVar := "Transcription complete" }

/-- handle_error of gui.py lines 328 to 332, scheduled by the except branch
of the transcribe worker: stop progress, re-enable the select button, show
the error text. -/
def handle_error (e : String) (s : GuiState) : GuiState :=
  { s with progressRunning := false
           selectButton := .normal
           statusVar := "Error: " ++ e }

/-- The try block of the transcribe worker, gui.py lines 280 to 325.  The
gateway argument is the opaque inference engine: given the handle the
worker passes and the file path, the environment determines the outcome of
the pipeline call.  Line 289 reads self.pipe from the session state current
when the worker executes, not from the state at submission.  The block can
only throw where the source can; transcribe_audio is total, so the body
always returns ok. -/
def transcribe_body (gateway : Option ModelHandle → String → Except String TranscriptResult)
    (filePath : String) (s : GuiState) : Except String GuiState :=
  let s1 := transcribe_worker_start filePath s
  let (result, _printed) := transcribe_audio (gateway s.pipe filePath)
  Except.ok (update_output result none s1)

/-- The whole transcribe worker, gui.py lines 280 to 334: run the try
block; an exception out of it would be caught by lines 327 to 332 and
handled by handle_error. -/
def transcribe_worker (gateway : Option ModelHandle → String → Except String TranscriptResult)
    (filePath : String) (s : GuiState) : GuiState :=
  match transcribe_body gateway filePath s with
  | .ok s2 => s2
  | .error e => handle_error e s

/-- Handle actually passed to the pipeline call: gui.py line 289 evaluates
self.pipe when the worker thread reaches the call, so the handle is read
from the session state current at that moment. -/
def worker_pipe_read (sAtRun : GuiState) : Option ModelHandle :=
  sAtRun.pipe

/-- Capture-by-value semantics as the specification words it (section 5):
the handle a transcription job uses is the one current in the session state
at the moment the job is submitted.  Stated for comparison with
worker_pipe_read, which is what the code does. -/
def spec_pipe_captured_at_submission (sAtSubmit : GuiState) : Option ModelHandle :=
  sAtSubmit.pipe

/-- The Ready state reached when the startup load of the small model
succeeds and returns handle 1. -/
def readyState : GuiState := initialize_pipeline (.ok 1) initState

/-- The Ready state with the user having picked large in the combobox, the
moment before on_model_change runs. -/
def largeSelected : GuiState := { readyState with modelVar := "large" }

/-- A concrete one-chunk result used at concrete inputs. -/
def sampleResult : TranscriptResult :=
  { text := "hello world", chunks := [{ timestamp := .point 2, text := "hello world" }] }

/-- The pairs a list of operations would insert, in order. -/
def opContents (ops : List TextOp) : List (Option String × String) :=
  ops.filterMap fun op =>
    match op with
    | .insert tag t => some (tag, t)
    | _ => none

lemma insertsOnly_chunk_ops (c : Chunk) :
    ∀ op ∈ chunk_ops c, ∃ tag t, op = TextOp.insert tag t := by
  intro op hop
  simp only [chunk_ops, List.mem_cons, List.not_mem_nil, or_false] at hop
  rcases hop with h | h | h <;> exact ⟨_, _, h⟩

lemma insertsOnly_render_inserts (r : TranscriptResult) :
    ∀ op ∈ render_inserts r, ∃ tag t, op = TextOp.insert tag t := by
  intro op hop
  simp only [render_inserts, List.mem_append, List.mem_cons, List.not_mem_nil,
    or_false, List.mem_flatMap] at hop
  rcases hop with (h | h | h | h | h | h) | ⟨c, _, hc⟩
  · exact ⟨_, _, h⟩
  · exact ⟨_, _, h⟩
  · exact ⟨_, _, h⟩
  · exact ⟨_, _, h⟩
  · exact ⟨_, _, h⟩
  · exact ⟨_, _, h⟩
  · exact insertsOnly_chunk_ops c op hc

lemma runOps_insertsOnly (ops : List TextOp)
    (h : ∀ op ∈ ops, ∃ tag t, op = TextOp.insert tag t) :
    ∀ cs, runOps ⟨true, cs⟩ ops = ⟨true, cs ++ opContents ops⟩ := by
  induction ops with
  | nil => intro cs; simp [runOps, opContents]
  | cons op ops ih =>
    intro cs
    obtain ⟨tag, t, rfl⟩ := h _ (List.mem_cons_self _ _)
    have hrest : ∀ o ∈ ops, ∃ tag t, o = TextOp.insert tag t :=
      fun o ho => h o (List.mem_cons_of_mem _ ho)
    have h1 : runOps ⟨true, cs⟩ (TextOp.insert tag t :: ops) =
        runOps ⟨true, cs ++ [(tag, t)]⟩ ops := by
      simp [runOps, applyTextOp]
    rw [h1, ih hrest]
    simp [opContents]

lemma runOps_render (res : Option TranscriptResult) (surf : TextSurface) :
    runOps surf (render_ops res) = ⟨true, opContents (render_ops res)⟩ := by
  cases res with
  | none => simp [render_ops, runOps, applyTextOp, opContents]
  | some r =>
    have h1 : runOps surf (render_ops (some r)) =
        runOps ⟨true, []⟩ (render_inserts r) := by
      simp [render_ops, runOps, applyTextOp]
    rw [h1, runOps_insertsOnly _ (insertsOnly_render_inserts r)]
    simp [render_ops, opContents]

lemma update_output_eq (res : Option TranscriptResult) (s : GuiState) :
    update_output res none s =
      { s with output := ⟨false, opContents (render_ops res)⟩
               progressRunning := false
               selectButton := .normal
               statusVar := "Transcription complete" } := by
  simp [update_output, runOps_render, applyTextOp]

lemma pad2_length : ∀ n, n < 100 → (pad2 n).length = 2 := by decide

/-- C3: the transcript panel is read-only before rendering (it starts
read-only and no handler outside update_output changes it), it is made
writable only by the opening config call of the clear-and-insert sequence
of update_output (whose try block is exactly one config-writable, one
clear, then inserts), and on every exit path of update_output — for every
point raiseAt at which an exception may interrupt the try block — the
finally block leaves the panel read-only. -/
theorem render_readonly_restored :
    (∀ res raiseAt s, ((update_output res raiseAt s).output).writable = false) ∧
    (∀ res, ∃ inserts,
        render_ops res = TextOp.config true :: TextOp.deleteAll :: inserts ∧
        ∀ op ∈ inserts, ∃ tag t, op = TextOp.insert tag t) ∧
    (∀ out s, (initialize_pipeline out s).output = s.output) ∧
    (∀ s, ((on_model_change s).1).output = s.output) ∧
    (∀ f s, (transcribe_worker_start f s).output = s.output) ∧
    initState.output.writable = false := by
  refine ⟨?_, ?_, ?_, ?_, ?_, rfl⟩
  · intro res raiseAt s; rfl
  · intro res
    cases res with
    | none => exact ⟨[], rfl, by intro op hop; exact absurd hop (List.not_mem_nil op)⟩
    | some r => exact ⟨render_inserts r, rfl, insertsOnly_render_inserts r⟩
  · intro out s
    cases out <;> rfl
  · intro s
    unfold on_model_change
    split <;> rfl
  · intro f s; rfl

/-- C4: the timestamp label of a ranged segment is the bracketed pair with
both endpoints rendered with exactly two decimal places and the unit
suffix s, a point segment gets the single bracketed value; in particular
startTime 1.5 with endTime 3.25 gives [1.50s -> 3.25s] and startTime 2.0
with endTime absent gives [2.00s].  The inline formatter of gui.py agrees
with format_timestamp of transcribe.py, and every rendered number ends in
a point followed by exactly two digits. -/
theorem timestamp_label_format :
    format_timestamp (.range (3/2) (13/4)) = "[1.50s -> 3.25s]" ∧
    format_timestamp (.point 2) = "[2.00s]" ∧
    (∀ ts, gui_time_str ts = format_timestamp ts) ∧
    (∀ a b, format_timestamp (.range a b) =
      "[" ++ fmt2 a ++ "s -> " ++ fmt2 b ++ "s]") ∧
    (∀ a, format_timestamp (.point a) = "[" ++ fmt2 a ++ "s]") ∧
    (∀ q, ∃ pre frac, fmt2 q = pre ++ "." ++ frac ∧ frac.length = 2) := by
  refine ⟨?_, ?_, ?_, fun a b => rfl, fun a => rfl, ?_⟩
  · have h1 : round ((3/2 : ℚ) * 100) = 150 := by norm_num [round_eq]
    have h2 : round ((13/4 : ℚ) * 100) = 325 := by norm_num [round_eq]
    simp only [format_timestamp, fmt2, h1, h2]
    decide
  · have h1 : round ((2 : ℚ) * 100) = 200 := by norm_num [round_eq]
    simp only [format_timestamp, fmt2, h1]
    decide
  · intro ts; cases ts <;> rfl
  · intro q
    refine ⟨(if round (q * 100) < 0 then "-" else "") ++
        toString ((round (q * 100)).natAbs / 100),
      pad2 ((round (q * 100)).natAbs % 100), rfl, ?_⟩
    exact pad2_length _ (Nat.mod_lt _ (by norm_num))

/-- C5: for every model size and every failure of a model-load job, the
completion callback leaves the file-select button disabled and the model
selector enabled (readonly), so the two controls are never both disabled
nor both enabled after the failure, and the status line carries the
failure reason. -/
theorem model_load_failure_controls : ∀ e s,
    ((initialize_pipeline (.error e) s).selectButton).enabled = false ∧
    ((initialize_pipeline (.error e) s).modelCombo).enabled = true ∧
    ((initialize_pipeline (.error e) s).selectButton).enabled ≠
      ((initialize_pipeline (.error e) s).modelCombo).enabled ∧
    (initialize_pipeline (.error e) s).statusVar = "Error initializing: " ++ e := by
  intro e s
  exact ⟨rfl, rfl, Bool.false_ne_true, rfl⟩

/-- C7: rendering is idempotent; for every transcript result and every
prior state, running update_output twice on the same result yields exactly
the state of running it once (the clear step erases whatever was displayed
before), and the panel is read-only afterwards. -/
theorem render_idempotent : ∀ (r : TranscriptResult) (s : GuiState),
    update_output (some r) none (update_output (some r) none s) =
      update_output (some r) none s ∧
    ((update_output (some r) none s).output).writable = false := by
  intro r s
  constructor
  · simp only [update_output_eq]
  · simp only [update_output_eq]

/-- C1: counterexample.  In the Ready state the user picks a file; the
transcription worker is submitted and its first UI callback runs (the
in-flight point of the job, gui.py lines 283 to 287) — yet the model
selector is still readonly, that is enabled: the code never disables the
combobox for a transcription job, so the two job-triggering controls are
not both disabled while this job is in flight. -/
theorem transcribing_selector_enabled_cex :
    (transcribe_worker_start "talk.mp3" readyState).modelCombo =
      WidgetState.readonly ∧
    ((transcribe_worker_start "talk.mp3" readyState).modelCombo).enabled = true :=
  ⟨rfl, rfl⟩

/-- C1 as amended: during a model-load job both job-triggering controls are
disabled (on_model_change disables them synchronously and the first
callback of initialize_pipeline keeps them disabled), while during a
transcription job only the file-select button is disabled and the model
selector keeps its previous state. -/
theorem jobs_disable_controls (s : GuiState) (f : String)
    (h : s.modelVar ≠ s.currentModel) :
    (((on_model_change s).1).selectButton = WidgetState.disabled ∧
     ((on_model_change s).1).modelCombo = WidgetState.disabled) ∧
    ((initialize_pipeline_started s).selectButton = WidgetState.disabled ∧
     (initialize_pipeline_started s).modelCombo = WidgetState.disabled) ∧
    ((transcribe_worker_start f s).selectButton = WidgetState.disabled ∧
     (transcribe_worker_start f s).modelCombo = s.modelCombo) := by
  refine ⟨?_, ⟨rfl, rfl⟩, rfl, rfl⟩
  unfold on_model_change
  rw [if_pos h]
  exact ⟨rfl, rfl⟩

/-- C1 witness: the amended statement at the Ready state with large freshly
selected and a concrete file. -/
theorem jobs_disable_controls_witness :
    (largeSelected.modelVar ≠ largeSelected.currentModel) ∧
    ((((on_model_change largeSelected).1).selectButton = WidgetState.disabled ∧
      ((on_model_change largeSelected).1).modelCombo = WidgetState.disabled) ∧
     ((initialize_pipeline_started largeSelected).selectButton = WidgetState.disabled ∧
      (initialize_pipeline_started largeSelected).modelCombo = WidgetState.disabled) ∧
     ((transcribe_worker_start "talk.mp3" largeSelected).selectButton = WidgetState.disabled ∧
      (transcribe_worker_start "talk.mp3" largeSelected).modelCombo =
        largeSelected.modelCombo)) :=
  ⟨by decide, jobs_disable_controls largeSelected "talk.mp3" (by decide)⟩

/-- C2: counterexample.  When the transcription call produces no result
(transcribe_audio returned None after catching an inference error), the
completion callback still sets the status line to Transcription complete —
the very status a successful render sets — so the None outcome is reported
as a completed transcription, not as no output produced. -/
theorem none_result_status_complete_cex :
    (update_output none none readyState).statusVar = "Transcription complete" ∧
    (update_output none none readyState).statusVar =
      (update_output (some sampleResult) none readyState).statusVar :=
  ⟨rfl, rfl⟩

/-- C2 as amended: a model-load failure and a missing file do update the
visible status text with the failure; but an inference failure is only
printed to the console by transcribe_audio, which returns None, and the
completion callback then shows Transcription complete over a cleared
panel, indistinguishable in the status line from success. -/
theorem failure_status_updates :
    (∀ e s, (initialize_pipeline (.error e) s).statusVar =
      "Error initializing: " ++ e) ∧
    (∀ s, ((transcribe_file false s).1).statusVar = "Error: File not found") ∧
    (∀ e, (transcribe_audio (.error e)).1 = none ∧
          (transcribe_audio (.error e)).2 = ["Error transcribing audio: " ++ e]) ∧
    (∀ s, (update_output none none s).statusVar = "Transcription complete" ∧
          ((update_output none none s).output).content = []) := by
  refine ⟨fun e s => rfl, fun s => rfl, fun e => ⟨rfl, rfl⟩, fun s => ⟨rfl, ?_⟩⟩
  rw [update_output_eq]
  rfl

/-- C6: counterexample.  A transcription job is submitted in the Ready
state whose current handle is 1; before the worker reaches the pipeline
call, a pending model load completes and installs handle 2; the worker
then reads self.pipe and uses handle 2 — not the handle that was current
at submission, so the handle is a live read of session state, not a value
captured at submission time. -/
theorem pipe_live_reference_cex :
    worker_pipe_read (initialize_pipeline_finish (.ok 2) readyState) ≠
      spec_pipe_captured_at_submission readyState := by decide

/-- C6 as amended: the worker reads the model handle from the session
state current when it executes the transcription call (gui.py line 289),
so whenever the current model is replaced between submission and that
read, the in-flight transcription uses the replacement handle rather than
the submission-time one, and the handle actually passed to the pipeline
is exactly the run-time value of self.pipe. -/
theorem pipe_read_at_execution (sSubmit sRun : GuiState)
    (h : sSubmit.pipe ≠ sRun.pipe) :
    worker_pipe_read sRun = sRun.pipe ∧
    worker_pipe_read sRun ≠ spec_pipe_captured_at_submission sSubmit ∧
    (∀ g f, transcribe_body g f sRun =
      Except.ok (update_output (transcribe_audio (g sRun.pipe f)).1 none
        (transcribe_worker_start f sRun))) :=
  ⟨rfl, fun hc => h hc.symm, fun _ _ => rfl⟩

/-- C6 witness: the amended statement at the concrete pair of states of
the counterexample scenario. -/
theorem pipe_read_at_execution_witness :
    (readyState.pipe ≠ (initialize_pipeline_finish (.ok 2) readyState).pipe) ∧
    (worker_pipe_read (initialize_pipeline_finish (.ok 2) readyState) =
       (initialize_pipeline_finish (.ok 2) readyState).pipe ∧
     worker_pipe_read (initialize_pipeline_finish (.ok 2) readyState) ≠
       spec_pipe_captured_at_submission readyState ∧
     (∀ g f, transcribe_body g f (initialize_pipeline_finish (.ok 2) readyState) =
       Except.ok (update_output
         (transcribe_audio (g (initialize_pipeline_finish (.ok 2) readyState).pipe f)).1
         none
         (transcribe_worker_start f (initialize_pipeline_finish (.ok 2) readyState))))) :=
  ⟨by decide, pipe_read_at_execution readyState _ (by decide)⟩

/-- C8: requesting transcription of a path that does not exist sets the
file-not-found status, spawns no worker thread, and changes nothing else:
in a Ready state the file-select button stays enabled and the session
fields and the panel are untouched. -/
theorem missing_file_no_worker (s : GuiState)
    (h : s.selectButton = WidgetState.normal) :
    (transcribe_file false s).2 = false ∧
    ((transcribe_file false s).1).statusVar = "Error: File not found" ∧
    ((transcribe_file false s).1).selectButton = WidgetState.normal ∧
    ((transcribe_file false s).1).pipe = s.pipe ∧
    ((transcribe_file false s).1).currentModel = s.currentModel ∧
    ((transcribe_file false s).1).output = s.output :=
  ⟨rfl, rfl, h, rfl, rfl, rfl⟩

/-- C8 witness: the statement at the concrete Ready state. -/
theorem missing_file_no_worker_witness :
    readyState.selectButton = WidgetState.normal ∧
    ((transcribe_file false readyState).2 = false ∧
     ((transcribe_file false readyState).1).statusVar = "Error: File not found" ∧
     ((transcribe_file false readyState).1).selectButton = WidgetState.normal ∧
     ((transcribe_file false readyState).1).pipe = readyState.pipe ∧
     ((transcribe_file false readyState).1).currentModel = readyState.currentModel ∧
     ((transcribe_file false readyState).1).output = readyState.output) :=
  ⟨rfl, missing_file_no_worker readyState rfl⟩

/-- C9: with a parsed model size and file, the command-line entry point on
success prints the stripped transcript and one timestamped line per chunk
and exits 0; an uncaught model-load failure exits 1; an inference failure
prints the error line of transcribe_audio and falls through with exit 0,
so every error path exits non-zero or emits a failure message. -/
theorem cli_output_and_exit :
    (∀ m (r : TranscriptResult),
       (cli_main m (.ok 0) (.ok r)).2 = 0 ∧
       "Transcription:" ∈ (cli_main m (.ok 0) (.ok r)).1 ∧
       pyStrip r.text ∈ (cli_main m (.ok 0) (.ok r)).1 ∧
       "Timestamped chunks:" ∈ (cli_main m (.ok 0) (.ok r)).1 ∧
       ∀ c ∈ r.chunks,
         (format_timestamp c.timestamp ++ " " ++ pyStrip c.text) ∈
           (cli_main m (.ok 0) (.ok r)).1) ∧
    (∀ m e t, (cli_main m (.error e) t).2 = 1) ∧
    (∀ m e, (cli_main m (.ok 0) (.error e)).2 = 0 ∧
       ("Error transcribing audio: " ++ e) ∈ (cli_main m (.ok 0) (.error e)).1) := by
  refine ⟨?_, fun m e t => rfl, fun m e => ⟨rfl, ?_⟩⟩
  · intro m r
    refine ⟨rfl, ?_, ?_, ?_, ?_⟩
    · simp [cli_main, transcribe_audio]
    · simp [cli_main, transcribe_audio]
    · simp [cli_main, transcribe_audio]
    · intro c hc
      simp only [cli_main, transcribe_audio, List.mem_append, List.mem_cons,
        List.mem_map]
      exact Or.inr ⟨c, hc, rfl⟩
  · simp [cli_main, transcribe_audio]

/-- C10: transcribe_audio catches every inference failure, printing it and
returning None, so for every outcome of the pipeline call it returns the
result of a successful call and None otherwise; consequently the try block
of the transcribe worker always returns normally and the except branch of
the caller is never taken for inference errors — the worker always reaches
the update_output callback. -/
theorem transcribe_audio_never_throws :
    (∀ out : Except String TranscriptResult,
       (transcribe_audio out).1 = out.toOption) ∧
    (∀ g f s, transcribe_body g f s =
       Except.ok (update_output (transcribe_audio (g s.pipe f)).1 none
         (transcribe_worker_start f s)) ∧
       transcribe_worker g f s =
         update_output (transcribe_audio (g s.pipe f)).1 none
           (transcribe_worker_start f s) ∧
       (transcribe_worker g f s).statusVar = "Transcription complete") := by
  constructor
  · intro out; cases out <;> rfl
  · intro g f s
    exact ⟨rfl, rfl, rfl⟩

end Transcriber
